import Mathlib

/-!
# ruby-dtrace: the handle bindings of `ext/dtrace_hdl.c`

A shallow embedding of the C functions that bind a DTrace handle to Ruby,
and the properties of the session operations and of the callback dispatch
that the consumption cycle performs.

* Ruby values are the inductive `VALUE`; a raised exception is the error
  side of `Except RubyException`.
* The native library (libdtrace) and the Ruby procs are not part of the
  sources: they are the fields of `Env`, arbitrary functions on an
  arbitrary world state `σ`.
* Every `rb_funcall(proc, "call", 1, x)` is recorded, oldest first, in the
  `calls` log of `State`, so that invocations can be counted.
* A C text is a `String` whose characters are its bytes; what native code
  reads through a `char *` ends before the first NUL (`cstr`).
-/

namespace RubyDtrace

/-! ## Native data and Ruby values -/

/-- Per-firing data of the native engine (`dtrace_probedata_t`); the source
reads only `dtpda_data`. -/
structure dtrace_probedata_t where
  dtpda_data : Nat
deriving DecidableEq, Repr

/-- Record descriptor of the native engine (`dtrace_recdesc_t`); the source
reads only `dtrd_action`. -/
structure dtrace_recdesc_t where
  dtrd_action : Nat
  dtrd_offset : Nat
deriving DecidableEq, Repr

/-- Buffered-output unit of the native engine (`dtrace_bufdata_t`). -/
structure dtrace_bufdata_t where
  dtbda_buffered : String
deriving DecidableEq, Repr

/-- A native pointer: NULL, or what it designates. -/
inductive CPtr
  | null
  | hdl (h : Nat)
  | prog (p : Nat)
  | probedata (d : dtrace_probedata_t)
  | recdesc (r : dtrace_recdesc_t)
  | bufdata (b : dtrace_bufdata_t)
deriving DecidableEq, Repr

/-- Ruby classes: the five `RUBY_EXTERN` classes of the source, and any other
class (the `klass` that `dtrace_hdl_alloc` receives). -/
inductive Klass
  | cDtraceProbe
  | cDtraceProgram
  | cDtraceRecDesc
  | cDtraceProbeData
  | cDtraceBufData
  | other (id : Nat)
deriving DecidableEq, Repr

/-- Ruby values. `obj` is any plain object (a proc, say) known by identity;
`data` is the result of `Data_Wrap_Struct`; `ivset o n v` is the object `o`
after `rb_iv_set(o, n, v)`. -/
inductive VALUE
  | Qnil
  | fixnum (n : Int)
  | str (s : String)
  | obj (id : Nat)
  | data (klass : Klass) (ptr : CPtr)
  | ivset (o : VALUE) (name : String) (v : VALUE)
deriving DecidableEq, Repr

/-- Exception classes that the embedded code can raise. -/
inductive ExcClass
  | eDtraceException
  | rb_eArgError
  | rb_eTypeError
deriving DecidableEq, Repr

/-- A raised Ruby exception: its class and its message. -/
structure RubyException where
  klass : ExcClass
  message : String
deriving DecidableEq, Repr

/-- The interpreter state seen by the callbacks: the world (native engine and
Ruby heap, changed by native calls and by procs) and the log of proc
invocations `(receiver, argument)`, oldest first. -/
structure State (σ : Type) where
  world : σ
  calls : List (VALUE × VALUE)

/-- The two callbacks and the session that `dtrace_hdl_work` hands to the
native drain (`dtrace_work_handlers_t`; the field `rec` of the source is
`rec_` here). -/
structure dtrace_work_handlers_t where
  probe : VALUE
  rec_ : VALUE
  handle : VALUE
deriving DecidableEq, Repr

/-- Everything outside the sources: how a Ruby object answers `call`, and the
libdtrace entry points. Each takes the world and returns its result with the
new world; `dtrace_errno` and `dtrace_errmsg` only read it. `dtrace_open`
returns the handle (NULL on failure) and the error code it stores through its
last argument; an argument vector is a list of slots, `none` a slot that was
never written. `apple` says whether `__APPLE__` is defined. `BUFSIZ` is the
size of the buffer in which `rb_raise` formats its message, and
`undefined_conversion` is what the C library writes for the rest of a format
from a conversion that asks for an argument that was not passed. -/
structure Env (σ : Type) where
  call : VALUE → VALUE → σ → VALUE × σ
  apple : Bool
  BUFSIZ : Nat
  undefined_conversion : List Char → List Char
  dtrace_open : Int → Int → σ → (CPtr × Int) × σ
  dtrace_setopt : CPtr → String → Option String → σ → Int × σ
  dtrace_go : CPtr → σ → Int × σ
  dtrace_status : CPtr → σ → Int × σ
  dtrace_stop : CPtr → σ → Int × σ
  dtrace_errno : CPtr → σ → Int
  dtrace_errmsg : CPtr → Int → σ → String
  dtrace_program_strcompile :
    CPtr → String → Int → Int → Nat → List (Option String) → σ → CPtr × σ
  dtrace_handle_buffered :
    CPtr → (dtrace_bufdata_t → State σ → Int × State σ) → σ → Int × σ
  dtrace_work :
    CPtr → (dtrace_probedata_t → State σ → Int × State σ) →
      (dtrace_probedata_t → Option dtrace_recdesc_t → State σ → Int × State σ) →
      State σ → Int × State σ

/-! ## Constants of the native header -/

/-- Modelled from the spec: the signal "continue consuming this firing or
record"; the constant is declared in the native header dtrace.h, which is not
among the sources (its value there is 0). -/
def DTRACE_CONSUME_THIS : Int := 0

/-- Modelled from the spec: the signal "skip the remaining records and advance
to the next firing"; declared in dtrace.h, not among the sources (1 there). -/
def DTRACE_CONSUME_NEXT : Int := 1

/-- Modelled from the spec: the answer "handled" of a buffered-output handler;
declared in dtrace.h, not among the sources (0 there). -/
def DTRACE_HANDLE_OK : Int := 0

/-- Modelled from the spec: the action kind of an "exit" action; declared in
the native header sys/dtrace.h, not among the sources (2 there). -/
def DTRACEACT_EXIT : Nat := 2

/-- Modelled from the spec: the "error" status of a drain cycle; declared in
dtrace.h, not among the sources (-1 there). -/
def DTRACE_WORKSTATUS_ERROR : Int := -1

/-- Modelled from the spec: the native interface version requested by open;
declared in dtrace.h, not among the sources (3 there). -/
def DTRACE_VERSION : Int := 3

/-- Modelled from the spec: "name-based probe specification matching";
declared in dtrace.h, not among the sources (3 there). -/
def DTRACE_PROBESPEC_NAME : Int := 3

/-- Modelled from the spec: the compiler flag that goes with probe
specifications; declared in dtrace.h, not among the sources (0x80 there). -/
def DTRACE_C_PSPEC : Int := 128

/-! ## The Ruby C interface used by the source -/

/-- The test `NIL_P(v)`. -/
def NIL_P : VALUE → Bool
  | .Qnil => true
  | _ => false

/-- The conversion `INT2FIX(i)`. -/
def INT2FIX (i : Int) : VALUE := .fixnum i

/-- The NUL character, which ends a C text. -/
def NUL : Char := Char.ofNat 0

/-- The text that native code reads through a `char *` into a buffer holding
`s`: the characters before the first NUL. -/
def cstr (s : String) : String := ⟨s.data.takeWhile (fun c => c != NUL)⟩

/-- What `vsnprintf` makes of a format when no argument was passed: an ordinary
character is copied, `%%` gives one `%`, and from any other `%` on the output
is whatever the C library writes (`undefined_conversion`, given the characters
after that `%`). -/
def format_no_arguments (undefined_conversion : List Char → List Char) :
    List Char → List Char
  | [] => []
  | [c] => if c = '%' then undefined_conversion [] else [c]
  | c :: d :: rest =>
    if c = '%' then
      if d = '%' then '%' :: format_no_arguments undefined_conversion rest
      else undefined_conversion (d :: rest)
    else c :: format_no_arguments undefined_conversion (d :: rest)

/-- The message of the exception that `rb_raise(klass, fmt)` raises when the
source passes no further argument: `fmt`, read as a C text, is formatted by
`vsnprintf(buf, BUFSIZ, fmt, args)` into a buffer of `BUFSIZ` bytes, the last
of which is the closing NUL. -/
def rb_raise_message {σ : Type} (env : Env σ) (fmt : String) : String :=
  ⟨(format_no_arguments env.undefined_conversion (cstr fmt).data).take (env.BUFSIZ - 1)⟩

/-- The call `rb_raise(klass, fmt)` of the source: control leaves the function
with an exception of that class and the formatted message. -/
def rb_raise {σ α : Type} (env : Env σ) (klass : ExcClass) (fmt : String) :
    Except RubyException α :=
  .error ⟨klass, rb_raise_message env fmt⟩

/-- Whether a text passes through `rb_raise` unchanged: it holds no `%` and no
NUL, and it fits the buffer of `size` bytes with its closing NUL. -/
def plain_text (size : Nat) (t : String) : Bool :=
  t.data.all (fun c => c != '%' && c != NUL) && decide (t.data.length < size)

/-- The call `Data_Wrap_Struct(klass, mark, free, ptr)`: a fresh data object of
class `klass` around `ptr`. -/
def Data_Wrap_Struct (klass : Klass) (ptr : CPtr) : VALUE := .data klass ptr

/-- The pointer held by a data object, if the value is one. -/
def DATA_PTR : VALUE → Option CPtr
  | .data _ p => some p
  | .ivset o _ _ => DATA_PTR o
  | _ => none

/-- The access `Data_Get_Struct(obj, type, ptr)`; Ruby raises a TypeError when
`obj` is not a data object. -/
def Data_Get_Struct (obj : VALUE) : Except RubyException CPtr :=
  match DATA_PTR obj with
  | some p => .ok p
  | none => .error ⟨.rb_eTypeError, "wrong argument type (expected Data)"⟩

/-- The call `rb_iv_set(obj, name, v)`, returning the updated object. -/
def rb_iv_set (obj : VALUE) (name : String) (v : VALUE) : VALUE := .ivset obj name v

/-- The call `rb_iv_get(obj, name)`: the value last set, nil if never set. -/
def rb_iv_get : VALUE → String → VALUE
  | .ivset o n v, name => if n = name then v else rb_iv_get o name
  | _, _ => .Qnil

/-- The conversion `STR2CSTR(v)`: a `char *` into the bytes of a Ruby string,
which native code reads as a C text, up to the first NUL of the string; Ruby
raises a TypeError for a value that is not a string. -/
def STR2CSTR : VALUE → Except RubyException String
  | .str s => .ok (cstr s)
  | .ivset o _ _ => STR2CSTR o
  | _ => .error ⟨.rb_eTypeError, "can't convert into String"⟩

/-- The call `rb_funcall(recv, rb_intern("call"), 1, x)`: the receiver answers
`call` as the environment says, and the invocation is logged. The receiver is
taken to return; a proc that raises leaves the native drain by a non-local
exit, which this embedding does not describe. -/
def rb_funcall_call {σ : Type} (env : Env σ) (recv x : VALUE) (s : State σ) :
    VALUE × State σ :=
  let r := env.call recv x s.world
  (r.1, ⟨r.2, s.calls ++ [(recv, x)]⟩)

/-- The call `rb_scan_args(argc, argv, "11", &a, &b)`: one mandatory and one
optional argument (nil when absent), an ArgumentError otherwise. -/
def rb_scan_args_11 : List VALUE → Except RubyException (VALUE × VALUE)
  | [a] => .ok (a, .Qnil)
  | [a, b] => .ok (a, b)
  | _ => .error ⟨.rb_eArgError, "wrong number of arguments"⟩

/-- The call `rb_scan_args(argc, argv, "1*", &a, &rest)`: one mandatory
argument and the array of all the others, an ArgumentError when there is
none. -/
def rb_scan_args_1star : List VALUE → Except RubyException (VALUE × List VALUE)
  | [] => .error ⟨.rb_eArgError, "wrong number of arguments"⟩
  | a :: rest => .ok (a, rest)

/-- The call `rb_ary_entry(ary, i)`: the element at `i`, nil out of range. -/
def rb_ary_entry (ary : List VALUE) (i : Nat) : VALUE := ary.getD i .Qnil

/-! ## The callbacks handed to the native engine (source lines 238-299) -/

/-- The function `_probe_consumer` of the source. -/
def _probe_consumer {σ : Type} (env : Env σ) (data : dtrace_probedata_t)
    (arg : dtrace_work_handlers_t) (s : State σ) : Int × State σ :=
  let handlers := arg
  let proc := handlers.probe
  let s1 :=
    if !NIL_P proc then
      let probedata := Data_Wrap_Struct .cDtraceProbeData (.probedata data)
      let probedata := rb_iv_set probedata "@handle" handlers.handle
      (rb_funcall_call env proc probedata s).2
    else s
  (DTRACE_CONSUME_THIS, s1)

/-- The function `_rec_consumer` of the source; `none` is the NULL record. -/
def _rec_consumer {σ : Type} (env : Env σ) (_data : dtrace_probedata_t)
    (rec_ : Option dtrace_recdesc_t) (arg : dtrace_work_handlers_t) (s : State σ) :
    Int × State σ :=
  match rec_ with
  | none => (DTRACE_CONSUME_NEXT, s)
  | some r =>
    let handlers := arg
    let proc := handlers.rec_
    let s1 :=
      if !NIL_P proc then
        let recdesc := Data_Wrap_Struct .cDtraceRecDesc (.recdesc r)
        let recdesc := rb_iv_set recdesc "@handle" handlers.handle
        (rb_funcall_call env proc recdesc s).2
      else s
    let act := r.dtrd_action
    if act = DTRACEACT_EXIT then (DTRACE_CONSUME_NEXT, s1)
    else (DTRACE_CONSUME_THIS, s1)

/-- The function `_buf_consumer` of the source; `arg` is the proc. -/
def _buf_consumer {σ : Type} (env : Env σ) (bufdata : dtrace_bufdata_t) (arg : VALUE)
    (s : State σ) : Int × State σ :=
  let proc := arg
  let s1 :=
    if !NIL_P proc then
      let dtracebufdata := Data_Wrap_Struct .cDtraceBufData (.bufdata bufdata)
      (rb_funcall_call env proc dtracebufdata s).2
    else s
  (DTRACE_HANDLE_OK, s1)

/-! ## The drain cycle (source lines 309-331) -/

/-- The function `dtrace_hdl_work` of the source. -/
def dtrace_hdl_work {σ : Type} (env : Env σ) (self : VALUE) (argv : List VALUE)
    (s : State σ) : Except RubyException VALUE × State σ :=
  match Data_Get_Struct self with
  | .error e => (.error e, s)
  | .ok handle =>
    match rb_scan_args_11 argv with
    | .error e => (.error e, s)
    | .ok (probe_consumer_proc, rec_consumer_proc) =>
      let handlers : dtrace_work_handlers_t :=
        ⟨probe_consumer_proc, rec_consumer_proc, self⟩
      let r := env.dtrace_work handle
        (fun data => _probe_consumer env data handlers)
        (fun data rec_ => _rec_consumer env data rec_ handlers) s
      (.ok (INT2FIX r.1), r.2)

/-! ## Opening a session (source lines 19-42) -/

/-- The function `dtrace_hdl_alloc` of the source. -/
def dtrace_hdl_alloc {σ : Type} (env : Env σ) (klass : Klass) (w : σ) :
    Except RubyException VALUE × σ :=
  let r := env.dtrace_open DTRACE_VERSION 0 w
  let handle := r.1.1
  if handle ≠ .null then
    let w1 :=
      if env.apple then (env.dtrace_setopt handle "stacksymbols" (some "enabled") r.2).2
      else r.2
    let obj := Data_Wrap_Struct klass handle
    (.ok obj, w1)
  else
    (rb_raise env .eDtraceException "unable to open dtrace (not root?)", r.2)

/-! ## Compiling a program (source lines 91-129) -/

/-- The allocation `ALLOC_N(char *, n)`: `n` slots, none written yet. -/
def ALLOC_N (n : Nat) : List (Option String) := List.replicate n none

/-- The loop of source lines 108-110, with `n` iterations left and the loop
variable at `i`: slot `i + 1` receives the C string of array entry `i`. -/
def fill_argv (dtrace_argv_array : List VALUE) :
    Nat → Nat → List (Option String) → Except RubyException (List (Option String))
  | 0, _, dtrace_argv => .ok dtrace_argv
  | n + 1, i, dtrace_argv =>
    match STR2CSTR (rb_ary_entry dtrace_argv_array i) with
    | .error e => .error e
    | .ok c => fill_argv dtrace_argv_array n (i + 1) (dtrace_argv.set (i + 1) (some c))

/-- The function `dtrace_strcompile` of the source. The rest array of
`rb_scan_args` is the list of the arguments after the text, `dtrace_argc` is
`FIX2INT` of its `length`, and a `char *` is the text it points to. -/
def dtrace_strcompile {σ : Type} (env : Env σ) (self : VALUE) (argv : List VALUE) (w : σ) :
    Except RubyException VALUE × σ :=
  match rb_scan_args_1star argv with
  | .error e => (.error e, w)
  | .ok (dtrace_text, dtrace_argv_array) =>
    let dtrace_argc := dtrace_argv_array.length
    let dtrace_argv := ALLOC_N (dtrace_argc + 1)
    match fill_argv dtrace_argv_array dtrace_argc 0 dtrace_argv with
    | .error e => (.error e, w)
    | .ok dtrace_argv =>
      let dtrace_argv := dtrace_argv.set 0 (some "ruby")
      let dtrace_argc := dtrace_argc + 1
      match Data_Get_Struct self with
      | .error e => (.error e, w)
      | .ok handle =>
        match STR2CSTR dtrace_text with
        | .error e => (.error e, w)
        | .ok text =>
          let r := env.dtrace_program_strcompile handle text
            DTRACE_PROBESPEC_NAME DTRACE_C_PSPEC dtrace_argc dtrace_argv w
          let program := r.1
          if program = .null then
            (rb_raise env .eDtraceException
              (env.dtrace_errmsg handle (env.dtrace_errno handle r.2) r.2), r.2)
          else
            let dtrace_program := Data_Wrap_Struct .cDtraceProgram program
            let dtrace_program := rb_iv_set dtrace_program "@dtrace" self
            (.ok dtrace_program, r.2)

/-! ## Session control (source lines 137-236) -/

/-- The function `dtrace_hdl_go` of the source. -/
def dtrace_hdl_go {σ : Type} (env : Env σ) (self : VALUE) (w : σ) :
    Except RubyException VALUE × σ :=
  match Data_Get_Struct self with
  | .error e => (.error e, w)
  | .ok handle =>
    let r := env.dtrace_go handle w
    if r.1 < 0 then
      (rb_raise env .eDtraceException
        (env.dtrace_errmsg handle (env.dtrace_errno handle r.2) r.2), r.2)
    else (.ok .Qnil, r.2)

/-- The function `dtrace_hdl_status` of the source. -/
def dtrace_hdl_status {σ : Type} (env : Env σ) (self : VALUE) (w : σ) :
    Except RubyException VALUE × σ :=
  match Data_Get_Struct self with
  | .error e => (.error e, w)
  | .ok handle =>
    let r := env.dtrace_status handle w
    let status := r.1
    if status < 0 then
      (rb_raise env .eDtraceException
        (env.dtrace_errmsg handle (env.dtrace_errno handle r.2) r.2), r.2)
    else (.ok (INT2FIX status), r.2)

/-- The function `dtrace_hdl_setopt` of the source; `called` is the native call
of the branch taken, once its string arguments are converted. -/
def dtrace_hdl_setopt {σ : Type} (env : Env σ) (self key value : VALUE) (w : σ) :
    Except RubyException VALUE × σ :=
  match Data_Get_Struct self with
  | .error e => (.error e, w)
  | .ok handle =>
    let called : Except RubyException (Int × σ) :=
      if NIL_P value then
        match STR2CSTR key with
        | .error e => .error e
        | .ok k => .ok (env.dtrace_setopt handle k none w)
      else
        match STR2CSTR key with
        | .error e => .error e
        | .ok k =>
          match STR2CSTR value with
          | .error e => .error e
          | .ok v => .ok (env.dtrace_setopt handle k (some v) w)
    match called with
    | .error e => (.error e, w)
    | .ok r =>
      let ret := r.1
      if ret < 0 then
        (rb_raise env .eDtraceException
          (env.dtrace_errmsg handle (env.dtrace_errno handle r.2) r.2), r.2)
      else (.ok .Qnil, r.2)

/-- The function `dtrace_hdl_stop` of the source. -/
def dtrace_hdl_stop {σ : Type} (env : Env σ) (self : VALUE) (w : σ) :
    Except RubyException VALUE × σ :=
  match Data_Get_Struct self with
  | .error e => (.error e, w)
  | .ok handle =>
    let r := env.dtrace_stop handle w
    if r.1 < 0 then
      (rb_raise env .eDtraceException
        (env.dtrace_errmsg handle (env.dtrace_errno handle r.2) r.2), r.2)
    else (.ok .Qnil, r.2)

/-- The function `dtrace_hdl_error` of the source; `rb_str_new2` copies the C
text. -/
def dtrace_hdl_error {σ : Type} (env : Env σ) (self : VALUE) (w : σ) :
    Except RubyException VALUE :=
  match Data_Get_Struct self with
  | .error e => .error e
  | .ok handle =>
    let error_string := env.dtrace_errmsg handle (env.dtrace_errno handle w) w
    .ok (.str (cstr error_string))

/-! ## Installing the buffered-output handler (source lines 336-347) -/

/-- The function `dtrace_hdl_buf_consumer` of the source. -/
def dtrace_hdl_buf_consumer {σ : Type} (env : Env σ) (self buf_consumer : VALUE) (w : σ) :
    Except RubyException VALUE × σ :=
  match Data_Get_Struct self with
  | .error e => (.error e, w)
  | .ok handle =>
    let r := env.dtrace_handle_buffered handle
      (fun bufdata => _buf_consumer env bufdata buf_consumer) w
    if r.1 = -1 then
      (rb_raise env .eDtraceException "failed to establish buffered handler", r.2)
    else (.ok .Qnil, r.2)

/-! ## The native drain, as the specification describes it -/

/-- A ProbeEvent: a DtraceProbeData object around the firing, with the session
as its `@handle`. -/
def ProbeEvent (session : VALUE) (d : dtrace_probedata_t) : VALUE :=
  .ivset (.data .cDtraceProbeData (.probedata d)) "@handle" session

/-- A BufferEvent: a DtraceBufData object around the buffer unit. -/
def BufferEvent (b : dtrace_bufdata_t) : VALUE :=
  .data .cDtraceBufData (.bufdata b)

/-- A scripted environment on a world that counts proc invocations: every
native call answers `ret`, open and compile return `opened` and `compiled`,
the pending error code is `code` and its native message is `text`, every proc
returns its receiver, and the native drain reports no firing. The buffer of
`rb_raise` has 1024 bytes, and an undefined conversion writes nothing. -/
def scripted_text (ret : Int) (opened compiled : CPtr) (code : Int) (text : String) :
    Env Nat :=
  ⟨fun recv _ w => (recv, w + 1), false, 1024, fun _ => [],
    fun _ _ w => ((opened, code), w),
    fun _ _ _ w => (ret, w),
    fun _ w => (ret, w),
    fun _ w => (ret, w),
    fun _ w => (ret, w),
    fun _ _ => code,
    fun _ c _ => if c = 0 then "no error" else text,
    fun _ _ _ _ _ _ w => (compiled, w),
    fun _ _ w => (ret, w),
    fun _ _ _ s => (ret, s)⟩

/-- The scripted environment whose native message is "native error text". -/
def scripted (ret : Int) (opened compiled : CPtr) (code : Int) : Env Nat :=
  scripted_text ret opened compiled code "native error text"

/-- An environment whose world is the argument vector last handed to the
native compiler (which returns program 1), or the name and the value last
handed to the native option interface; every other native call answers 0 and
leaves the world as it is. -/
def recording : Env (List (Option String)) :=
  ⟨fun recv _ w => (recv, w), false, 1024, fun _ => [],
    fun _ _ w => ((.hdl 1, 0), w),
    fun _ name value _ => (0, [some name, value]),
    fun _ w => (0, w),
    fun _ w => (0, w),
    fun _ w => (0, w),
    fun _ _ => 0,
    fun _ _ _ => "no error",
    fun _ _ _ _ _ dtrace_argv _ => (.prog 1, dtrace_argv),
    fun _ _ w => (0, w),
    fun _ _ _ s => (0, s)⟩

/-- The slot of the argument vector that holds the C text of an argument. -/
def argument_slot (a : String) : Option String := some (cstr a)

/-! ## Lemmas on the expected dispatch -/

/-- The value of `dtrace_hdl_work`, called on a session with one or two
arguments, is the Fixnum of the status that `dtrace_work` reported, whatever
that status is: the status is never tested. -/
theorem work_returns_drain_status {σ : Type} (env : Env σ) (klass : Klass) (handle : CPtr)
    (onProbe onRecord : VALUE) (s : State σ) :
    (dtrace_hdl_work env (.data klass handle) [onProbe, onRecord] s).1 =
      .ok (INT2FIX (env.dtrace_work handle
        (fun d => _probe_consumer env d ⟨onProbe, onRecord, .data klass handle⟩)
        (fun d r => _rec_consumer env d r ⟨onProbe, onRecord, .data klass handle⟩) s).1) ∧
    (dtrace_hdl_work env (.data klass handle) [onProbe] s).1 =
      .ok (INT2FIX (env.dtrace_work handle
        (fun d => _probe_consumer env d ⟨onProbe, .Qnil, .data klass handle⟩)
        (fun d r => _rec_consumer env d r ⟨onProbe, .Qnil, .data klass handle⟩) s).1) :=
  ⟨rfl, rfl⟩

/-- C3 does not hold of the code: with a native drain that reports the error
status, `dtrace_hdl_work` raises no exception and returns the Fixnum -1, where
`dtrace_hdl_status`, `dtrace_hdl_go` and `dtrace_hdl_stop` test for a negative
status and raise. -/
theorem work_error_status_not_raised :
    ((scripted DTRACE_WORKSTATUS_ERROR .null .null 5).dtrace_work (.hdl 1)
        (fun d => _probe_consumer (scripted DTRACE_WORKSTATUS_ERROR .null .null 5) d
          ⟨.obj 1, .Qnil, .data (.other 0) (.hdl 1)⟩)
        (fun d r => _rec_consumer (scripted DTRACE_WORKSTATUS_ERROR .null .null 5) d r
          ⟨.obj 1, .Qnil, .data (.other 0) (.hdl 1)⟩) ⟨0, []⟩).1
      = DTRACE_WORKSTATUS_ERROR ∧
    (dtrace_hdl_work (scripted DTRACE_WORKSTATUS_ERROR .null .null 5)
        (.data (.other 0) (.hdl 1)) [.obj 1] ⟨0, []⟩).1 = .ok (.fixnum (-1)) ∧
    ¬ ∃ e, (dtrace_hdl_work (scripted DTRACE_WORKSTATUS_ERROR .null .null 5)
        (.data (.other 0) (.hdl 1)) [.obj 1] ⟨0, []⟩).1 = .error e := by
  refine ⟨rfl, rfl, ?_⟩
  rintro ⟨e, he⟩
  exact absurd he (by simp [dtrace_hdl_work, Data_Get_Struct, DATA_PTR, rb_scan_args_11])

/-! ## Record-level dispatch: the consume-next rule -/

/-- C2: for every non-null record, `_rec_consumer` answers DTRACE_CONSUME_NEXT
exactly when the action kind of the record is DTRACEACT_EXIT and
DTRACE_CONSUME_THIS exactly when it is not; the answer is the same for any
two environments (whatever the procs return), any two handler sets (onRecord
present or absent) and any two states. -/
theorem rec_consumer_consume_next_rule {σ : Type} (env env2 : Env σ)
    (data data2 : dtrace_probedata_t) (r : dtrace_recdesc_t)
    (arg arg2 : dtrace_work_handlers_t) (s s2 : State σ) :
    ((_rec_consumer env data (some r) arg s).1 = DTRACE_CONSUME_NEXT ↔
        r.dtrd_action = DTRACEACT_EXIT) ∧
    ((_rec_consumer env data (some r) arg s).1 = DTRACE_CONSUME_THIS ↔
        r.dtrd_action ≠ DTRACEACT_EXIT) ∧
    (_rec_consumer env data (some r) arg s).1 =
      (_rec_consumer env2 data2 (some r) arg2 s2).1 := by
  by_cases h : r.dtrd_action = DTRACEACT_EXIT
  · simp [_rec_consumer, h, DTRACE_CONSUME_NEXT, DTRACE_CONSUME_THIS]
  · simp [_rec_consumer, h, DTRACE_CONSUME_NEXT, DTRACE_CONSUME_THIS]

/-! ## Probe-level dispatch -/

/-- C7: `_probe_consumer` always answers DTRACE_CONSUME_THIS, whatever the
proc does; with an onProbe proc it logs exactly one invocation, of that proc
on the ProbeEvent that wraps the firing and has the session as `@handle`, and
the world changes as that one invocation says (where nil stands in for the
proc, nothing is invoked and the state is unchanged); and `dtrace_hdl_work`
hands the native drain this very consumer, with the session in the handlers. -/
theorem probe_consumer_dispatch {σ : Type} (env : Env σ) (data : dtrace_probedata_t)
    (onProbe onRecord : VALUE) (klass : Klass) (handle : CPtr) (s : State σ) :
    (_probe_consumer env data ⟨onProbe, onRecord, .data klass handle⟩ s).1
      = DTRACE_CONSUME_THIS ∧
    (NIL_P onProbe = false →
      (_probe_consumer env data ⟨onProbe, onRecord, .data klass handle⟩ s).2.calls
        = s.calls ++ [(onProbe, ProbeEvent (.data klass handle) data)] ∧
      (_probe_consumer env data ⟨onProbe, onRecord, .data klass handle⟩ s).2.world
        = (env.call onProbe (ProbeEvent (.data klass handle) data) s.world).2) ∧
    (NIL_P onProbe = true →
      (_probe_consumer env data ⟨onProbe, onRecord, .data klass handle⟩ s).2 = s) ∧
    dtrace_hdl_work env (.data klass handle) [onProbe, onRecord] s =
      (.ok (INT2FIX (env.dtrace_work handle
          (fun d => _probe_consumer env d ⟨onProbe, onRecord, .data klass handle⟩)
          (fun d r => _rec_consumer env d r ⟨onProbe, onRecord, .data klass handle⟩) s).1),
        (env.dtrace_work handle
          (fun d => _probe_consumer env d ⟨onProbe, onRecord, .data klass handle⟩)
          (fun d r => _rec_consumer env d r ⟨onProbe, onRecord, .data klass handle⟩) s).2) := by
  refine ⟨rfl, ?_, ?_, rfl⟩
  · intro h
    simp [_probe_consumer, h, rb_funcall_call, ProbeEvent, Data_Wrap_Struct, rb_iv_set]
  · intro h
    simp [_probe_consumer, h]

/-! ## Buffered-output dispatch -/

/-- C8: `_buf_consumer` always answers DTRACE_HANDLE_OK, whatever the proc
does; with an onBuffer proc it logs exactly one invocation, of that proc on
the BufferEvent that wraps the buffer unit, and the world changes as that one
invocation says (where nil stands in for the proc, nothing is invoked and the
state is unchanged); and the handler that `dtrace_hdl_buf_consumer` installs
is this consumer with the proc as its argument. -/
theorem buf_consumer_dispatch {σ : Type} (env : Env σ) (bufdata : dtrace_bufdata_t)
    (onBuffer : VALUE) (klass : Klass) (handle : CPtr) (s : State σ) :
    (_buf_consumer env bufdata onBuffer s).1 = DTRACE_HANDLE_OK ∧
    (NIL_P onBuffer = false →
      (_buf_consumer env bufdata onBuffer s).2.calls
        = s.calls ++ [(onBuffer, BufferEvent bufdata)] ∧
      (_buf_consumer env bufdata onBuffer s).2.world
        = (env.call onBuffer (BufferEvent bufdata) s.world).2) ∧
    (NIL_P onBuffer = true → (_buf_consumer env bufdata onBuffer s).2 = s) ∧
    (dtrace_hdl_buf_consumer env (.data klass handle) onBuffer s.world).2 =
      (env.dtrace_handle_buffered handle
        (fun b => _buf_consumer env b onBuffer) s.world).2 := by
  refine ⟨rfl, ?_, ?_, ?_⟩
  · intro h
    simp [_buf_consumer, h, rb_funcall_call, BufferEvent, Data_Wrap_Struct]
  · intro h
    simp [_buf_consumer, h]
  · simp only [dtrace_hdl_buf_consumer, Data_Get_Struct, DATA_PTR]
    split <;> rfl

/-- A worked instance of C7: the proc `obj 1` on the firing with data 7. -/
theorem probe_consumer_dispatch_witness :
    NIL_P (.obj 1) = false ∧
    (_probe_consumer (scripted 0 .null .null 0) ⟨7⟩
        ⟨.obj 1, .Qnil, .data (.other 0) (.hdl 1)⟩ ⟨0, []⟩).2.calls
      = [] ++ [(.obj 1, ProbeEvent (.data (.other 0) (.hdl 1)) ⟨7⟩)] :=
  ⟨rfl, ((probe_consumer_dispatch (scripted 0 .null .null 0) ⟨7⟩ (.obj 1) .Qnil
    (.other 0) (.hdl 1) ⟨0, []⟩).2.1 rfl).1⟩

/-- A worked instance of C8: the proc `obj 3` on a buffer unit. -/
theorem buf_consumer_dispatch_witness :
    NIL_P (.obj 3) = false ∧
    (_buf_consumer (scripted 0 .null .null 0) ⟨"out"⟩ (.obj 3) ⟨0, []⟩).2.calls
      = [] ++ [(.obj 3, BufferEvent ⟨"out"⟩)] :=
  ⟨rfl, ((buf_consumer_dispatch (scripted 0 .null .null 0) ⟨"out"⟩ (.obj 3)
    (.other 0) (.hdl 1) ⟨0, []⟩).2.1 rfl).1⟩

/-! ## C texts and the message of `rb_raise` -/

theorem takeWhile_all {α : Type} (p : α → Bool) (l : List α) (h : ∀ c ∈ l, p c = true) :
    l.takeWhile p = l := by
  induction l with
  | nil => rfl
  | cons c l ih =>
    rw [List.takeWhile_cons, h c (List.mem_cons_self c l),
      ih (fun x hx => h x (List.mem_cons_of_mem c hx))]
    rfl

theorem cstr_of_no_nul (t : String) (h : ∀ c ∈ t.data, c ≠ NUL) : cstr t = t := by
  unfold cstr
  rw [takeWhile_all _ t.data (fun c hc => by simpa using h c hc)]

theorem format_no_arguments_plain (conv : List Char → List Char) (l : List Char)
    (h : ∀ c ∈ l, c ≠ '%') : format_no_arguments conv l = l := by
  induction l with
  | nil => rfl
  | cons c t ih =>
    have hc : c ≠ '%' := h c (List.mem_cons_self c t)
    have ht := ih (fun x hx => h x (List.mem_cons_of_mem c hx))
    cases t with
    | nil => simp [format_no_arguments, hc]
    | cons d rest => simp only [format_no_arguments, hc, if_false, ht]

theorem plain_text_spec (size : Nat) (t : String) (h : plain_text size t = true) :
    (∀ c ∈ t.data, c ≠ '%') ∧ (∀ c ∈ t.data, c ≠ NUL) ∧ t.data.length < size := by
  simp only [plain_text, Bool.and_eq_true, List.all_eq_true, bne_iff_ne, ne_eq,
    decide_eq_true_eq] at h
  exact ⟨fun c hc => (h.1 c hc).1, fun c hc => (h.1 c hc).2, h.2⟩

theorem rb_raise_message_plain {σ : Type} (env : Env σ) (t : String)
    (h : plain_text env.BUFSIZ t = true) : rb_raise_message env t = t := by
  obtain ⟨h1, h2, h3⟩ := plain_text_spec _ _ h
  unfold rb_raise_message
  rw [cstr_of_no_nul t h2, format_no_arguments_plain _ _ h1,
    List.take_of_length_le (by omega)]

theorem plain_text_of_size_le (n m : Nat) (t : String) (hnm : n ≤ m)
    (h : plain_text n t = true) : plain_text m t = true := by
  simp only [plain_text, Bool.and_eq_true, decide_eq_true_eq] at h ⊢
  exact ⟨h.1, by omega⟩

/-! ## The argument vector of compile -/

theorem set_at_length {α : Type} (l1 l2 : List α) (a b : α) :
    (l1 ++ a :: l2).set l1.length b = l1 ++ b :: l2 := by
  induction l1 with
  | nil => rfl
  | cons x l1 ih => simp [ih]

theorem rb_ary_entry_at_length (pre suf : List String) (x : String) :
    rb_ary_entry ((pre ++ x :: suf).map VALUE.str) pre.length = .str x := by
  induction pre with
  | nil => rfl
  | cons y pre ih => simpa [rb_ary_entry] using ih

theorem fill_argv_strings (suf pre : List String) :
    fill_argv ((pre ++ suf).map VALUE.str) suf.length pre.length
        (none :: (pre.map argument_slot ++ List.replicate suf.length none))
      = .ok (none :: (pre ++ suf).map argument_slot) := by
  induction suf generalizing pre with
  | nil => simp [fill_argv]
  | cons x suf ih =>
    have hset : (none :: (pre.map argument_slot
          ++ List.replicate (x :: suf).length none)).set (pre.length + 1) (some (cstr x))
          = none :: ((pre ++ [x]).map argument_slot ++ List.replicate suf.length none) := by
      have h := set_at_length (pre.map argument_slot) (List.replicate suf.length none)
        none (some (cstr x))
      rw [List.length_map] at h
      simp [List.replicate_succ, h, argument_slot]
    have hih := ih (pre ++ [x])
    simp only [List.append_assoc, List.singleton_append, List.length_append,
      List.length_singleton] at hih
    simp only [List.length_cons, fill_argv, rb_ary_entry_at_length, STR2CSTR]
    rw [← List.length_cons x suf, hset]
    simpa using hih

theorem fill_argv_all (args : List String) :
    fill_argv (args.map VALUE.str) args.length 0 (ALLOC_N (args.length + 1))
      = .ok (none :: args.map argument_slot) := by
  have h := fill_argv_strings args []
  simpa [ALLOC_N, List.replicate_succ] using h

theorem strcompile_unfold {σ : Type} (env : Env σ) (klass : Klass) (handle : CPtr)
    (text : String) (args : List String) (w : σ) :
    dtrace_strcompile env (.data klass handle) (.str text :: args.map VALUE.str) w =
      if (env.dtrace_program_strcompile handle (cstr text) DTRACE_PROBESPEC_NAME
          DTRACE_C_PSPEC (args.length + 1) (some "ruby" :: args.map argument_slot) w).1
            = .null then
        (.error ⟨.eDtraceException, rb_raise_message env (env.dtrace_errmsg handle
          (env.dtrace_errno handle
            (env.dtrace_program_strcompile handle (cstr text) DTRACE_PROBESPEC_NAME
              DTRACE_C_PSPEC (args.length + 1) (some "ruby" :: args.map argument_slot) w).2)
          (env.dtrace_program_strcompile handle (cstr text) DTRACE_PROBESPEC_NAME
            DTRACE_C_PSPEC (args.length + 1) (some "ruby" :: args.map argument_slot) w).2)⟩,
          (env.dtrace_program_strcompile handle (cstr text) DTRACE_PROBESPEC_NAME
            DTRACE_C_PSPEC (args.length + 1) (some "ruby" :: args.map argument_slot) w).2)
      else
        (.ok (.ivset (.data .cDtraceProgram
          (env.dtrace_program_strcompile handle (cstr text) DTRACE_PROBESPEC_NAME
            DTRACE_C_PSPEC (args.length + 1) (some "ruby" :: args.map argument_slot) w).1)
            "@dtrace" (.data klass handle)),
          (env.dtrace_program_strcompile handle (cstr text) DTRACE_PROBESPEC_NAME
            DTRACE_C_PSPEC (args.length + 1) (some "ruby" :: args.map argument_slot) w).2) := by
  have h := fill_argv_all args
  simp only [dtrace_strcompile, rb_scan_args_1star, List.length_map, h, Data_Get_Struct,
    DATA_PTR, STR2CSTR, List.set_cons_zero, rb_raise, Data_Wrap_Struct, rb_iv_set]

/-- C4, as amended: called with a program text and N string arguments, compile
hands the native compiler the argument count N + 1 and the vector made of
"ruby" followed by the C texts of the caller arguments in their order (the
world after compile is the world the native compiler leaves when called so,
for every native compiler); the vector has length N + 1, entry 0 is "ruby",
and entry i + 1 is the C text of argument i, its characters before its first
NUL, for every i below N; that is the argument itself when it holds no NUL. -/
theorem strcompile_argument_vector {σ : Type} (env : Env σ) (klass : Klass) (handle : CPtr)
    (text : String) (args : List String) (w : σ) :
    (dtrace_strcompile env (.data klass handle) (.str text :: args.map VALUE.str) w).2 =
      (env.dtrace_program_strcompile handle (cstr text) DTRACE_PROBESPEC_NAME DTRACE_C_PSPEC
        (args.length + 1) (some "ruby" :: args.map argument_slot) w).2 ∧
    (some "ruby" :: args.map argument_slot).length = args.length + 1 ∧
    (some "ruby" :: args.map argument_slot)[0]? = some (some "ruby") ∧
    (∀ i : Fin args.length,
      (some "ruby" :: args.map argument_slot)[i.val + 1]? = some (some (cstr (args.get i)))) ∧
    (∀ a : String, (∀ c ∈ a.data, c ≠ NUL) → cstr a = a) := by
  refine ⟨?_, by simp, by simp, ?_, cstr_of_no_nul⟩
  · rw [strcompile_unfold]
    split <;> rfl
  · intro i
    simp [argument_slot]

/-- A worked instance of C4: the vector a recording native compiler receives
for the caller arguments "a" and "b", which hold no NUL. -/
theorem strcompile_argument_vector_witness :
    (∀ c ∈ ("a" : String).data, c ≠ NUL) ∧ cstr "a" = "a" ∧
    (dtrace_strcompile recording (.data (.other 0) (.hdl 1))
        [.str "syscall:::entry", .str "a", .str "b"] []).2
      = [some "ruby", argument_slot "a", argument_slot "b"] :=
  ⟨by decide,
    (strcompile_argument_vector recording (.other 0) (.hdl 1) "syscall:::entry"
      ["a", "b"] []).2.2.2.2 "a" (by decide),
    (strcompile_argument_vector recording (.other 0) (.hdl 1) "syscall:::entry"
      ["a", "b"] []).1⟩

/-- C4 fails as stated: for the caller argument "a", NUL, "b" the native
compiler receives the vector "ruby", "a", whose entry 1 is not the argument. -/
theorem strcompile_argument_cut_at_nul :
    (dtrace_strcompile recording (.data (.other 0) (.hdl 1))
        [.str "syscall:::entry", .str "a\x00b"] []).2 = [some "ruby", some "a"] ∧
    ([some "ruby", some "a"] : List (Option String))[1]? ≠ some (some "a\x00b") := by
  decide

/-! ## The result of compile -/

/-- The result of compile, for a program text and string arguments: a
DtraceProgram object around the native program, with the session as `@dtrace`,
exactly when the native compiler returns a non-null program; otherwise a
DtraceException whose message is the native message for the error code of the
session after the failed call, formatted by `rb_raise`. -/
theorem strcompile_result {σ : Type} (env : Env σ) (klass : Klass) (handle : CPtr)
    (text : String) (args : List String) (w : σ) (r : CPtr × σ)
    (hr : r = env.dtrace_program_strcompile handle (cstr text) DTRACE_PROBESPEC_NAME
      DTRACE_C_PSPEC (args.length + 1) (some "ruby" :: args.map argument_slot) w) :
    (r.1 ≠ .null →
      dtrace_strcompile env (.data klass handle) (.str text :: args.map VALUE.str) w
        = (.ok (.ivset (.data .cDtraceProgram r.1) "@dtrace" (.data klass handle)), r.2) ∧
      rb_iv_get (.ivset (.data .cDtraceProgram r.1) "@dtrace" (.data klass handle)) "@dtrace"
        = .data klass handle) ∧
    (r.1 = .null →
      dtrace_strcompile env (.data klass handle) (.str text :: args.map VALUE.str) w
        = (.error ⟨.eDtraceException, rb_raise_message env
            (env.dtrace_errmsg handle (env.dtrace_errno handle r.2) r.2)⟩, r.2)) ∧
    ((∃ p, (dtrace_strcompile env (.data klass handle)
        (.str text :: args.map VALUE.str) w).1 = .ok p) ↔ r.1 ≠ .null) := by
  subst hr
  rw [strcompile_unfold]
  refine ⟨fun h => ⟨by rw [if_neg h], by simp [rb_iv_get]⟩, fun h => by rw [if_pos h], ?_⟩
  by_cases h : (env.dtrace_program_strcompile handle (cstr text) DTRACE_PROBESPEC_NAME
      DTRACE_C_PSPEC (args.length + 1) (some "ruby" :: args.map argument_slot) w).1 = .null
  · simp [h]
  · simp [h]

/-- C5 does not hold of the code: when the native compiler returns NULL and the
native message for the pending error code is "100%% of probes failed", compile
raises a DtraceException whose message is "100% of probes failed": the native
text is handed to `rb_raise` as its format. -/
theorem strcompile_message_formatted :
    ((scripted_text 0 (.hdl 1) .null 5 "100%% of probes failed").dtrace_program_strcompile
        (.hdl 1) "syscall:::entry" DTRACE_PROBESPEC_NAME DTRACE_C_PSPEC 1 [some "ruby"] 0).1
      = .null ∧
    (scripted_text 0 (.hdl 1) .null 5 "100%% of probes failed").dtrace_errmsg (.hdl 1)
        ((scripted_text 0 (.hdl 1) .null 5 "100%% of probes failed").dtrace_errno (.hdl 1) 0) 0
      = "100%% of probes failed" ∧
    dtrace_strcompile (scripted_text 0 (.hdl 1) .null 5 "100%% of probes failed")
        (.data (.other 0) (.hdl 1)) [.str "syscall:::entry"] 0
      = (.error ⟨.eDtraceException, "100% of probes failed"⟩, 0) := by
  refine ⟨rfl, rfl, ?_⟩
  rfl

/-! ## Options and starting -/

/-- The result of go: a DtraceException, whose message is the native message
for the error code of the session after the call, formatted by `rb_raise`,
exactly when `dtrace_go` returns a negative result, and nil otherwise. -/
theorem go_result {σ : Type} (env : Env σ) (klass : Klass) (handle : CPtr) (w : σ)
    (r : Int × σ) (hr : r = env.dtrace_go handle w) :
    (r.1 < 0 →
      dtrace_hdl_go env (.data klass handle) w
        = (.error ⟨.eDtraceException, rb_raise_message env
            (env.dtrace_errmsg handle (env.dtrace_errno handle r.2) r.2)⟩, r.2)) ∧
    (¬ r.1 < 0 → dtrace_hdl_go env (.data klass handle) w = (.ok .Qnil, r.2)) ∧
    ((∃ e, (dtrace_hdl_go env (.data klass handle) w).1 = .error e) ↔ r.1 < 0) := by
  subst hr
  by_cases h : (env.dtrace_go handle w).1 < 0
  · simp [dtrace_hdl_go, Data_Get_Struct, DATA_PTR, rb_raise, h]
  · simp [dtrace_hdl_go, Data_Get_Struct, DATA_PTR, rb_raise, h]

/-- C10 does not hold of the code: when `dtrace_go` returns -1 and the native
message for the pending error code is "100%% of probes failed", go raises a
DtraceException whose message is "100% of probes failed": the native text is
handed to `rb_raise` as its format. -/
theorem go_message_formatted :
    ((scripted_text (-1) (.hdl 1) .null 5 "100%% of probes failed").dtrace_go (.hdl 1) 0).1
      = -1 ∧
    (scripted_text (-1) (.hdl 1) .null 5 "100%% of probes failed").dtrace_errmsg (.hdl 1)
        ((scripted_text (-1) (.hdl 1) .null 5 "100%% of probes failed").dtrace_errno
          (.hdl 1) 0) 0
      = "100%% of probes failed" ∧
    dtrace_hdl_go (scripted_text (-1) (.hdl 1) .null 5 "100%% of probes failed")
        (.data (.other 0) (.hdl 1)) 0
      = (.error ⟨.eDtraceException, "100% of probes failed"⟩, 0) := by
  refine ⟨rfl, rfl, ?_⟩
  rfl

/-! ## The messages of the raised errors -/

theorem STR2CSTR_error_klass (v : VALUE) (e : RubyException) (h : STR2CSTR v = .error e) :
    e.klass = .rb_eTypeError := by
  induction v with
  | Qnil => simp [STR2CSTR] at h; rw [← h]
  | fixnum n => simp [STR2CSTR] at h; rw [← h]
  | str s => simp [STR2CSTR] at h
  | obj id => simp [STR2CSTR] at h; rw [← h]
  | data k p => simp [STR2CSTR] at h; rw [← h]
  | ivset o n v iho _ => exact iho (by simpa [STR2CSTR] using h)

theorem fill_argv_error_klass (ary : List VALUE) (n i : Nat) (v : List (Option String))
    (e : RubyException) (h : fill_argv ary n i v = .error e) : e.klass = .rb_eTypeError := by
  induction n generalizing i v with
  | zero => simp [fill_argv] at h
  | succ n ih =>
    simp only [fill_argv] at h
    split at h
    · next e2 he =>
      injection h with h
      subst h
      exact STR2CSTR_error_klass _ _ he
    · exact ih _ _ h

theorem strcompile_error_message {σ : Type} (env : Env σ) (klass : Klass) (handle : CPtr)
    (argv : List VALUE) (w : σ) (e : RubyException)
    (h : (dtrace_strcompile env (.data klass handle) argv w).1 = .error e)
    (hk : e.klass = .eDtraceException) :
    e.message = rb_raise_message env (env.dtrace_errmsg handle
      (env.dtrace_errno handle (dtrace_strcompile env (.data klass handle) argv w).2)
      (dtrace_strcompile env (.data klass handle) argv w).2) := by
  cases argv with
  | nil =>
    simp only [dtrace_strcompile, rb_scan_args_1star, Except.error.injEq] at h
    subst h
    simp at hk
  | cons a rest =>
    cases hf : fill_argv rest rest.length 0 (ALLOC_N (rest.length + 1)) with
    | error e3 =>
      simp only [dtrace_strcompile, rb_scan_args_1star, hf, Except.error.injEq] at h
      subst h
      rw [fill_argv_error_klass _ _ _ _ _ hf] at hk
      simp at hk
    | ok filled =>
      cases hs : STR2CSTR a with
      | error e4 =>
        simp only [dtrace_strcompile, rb_scan_args_1star, hf, hs, Data_Get_Struct, DATA_PTR,
          Except.error.injEq] at h
        subst h
        rw [STR2CSTR_error_klass _ _ hs] at hk
        simp at hk
      | ok text =>
        by_cases hnull : (env.dtrace_program_strcompile handle text DTRACE_PROBESPEC_NAME
            DTRACE_C_PSPEC (rest.length + 1) (filled.set 0 (some "ruby")) w).1 = .null
        · simp only [dtrace_strcompile, rb_scan_args_1star, hf, hs, Data_Get_Struct, DATA_PTR,
            hnull, if_true, rb_raise, Except.error.injEq] at h ⊢
          subst h
          rfl
        · simp [dtrace_strcompile, rb_scan_args_1star, hf, hs, Data_Get_Struct, DATA_PTR,
            hnull] at h

theorem setopt_error_message {σ : Type} (env : Env σ) (klass : Klass) (handle : CPtr)
    (key value : VALUE) (w : σ) (e : RubyException)
    (h : (dtrace_hdl_setopt env (.data klass handle) key value w).1 = .error e)
    (hk : e.klass = .eDtraceException) :
    e.message = rb_raise_message env (env.dtrace_errmsg handle
      (env.dtrace_errno handle (dtrace_hdl_setopt env (.data klass handle) key value w).2)
      (dtrace_hdl_setopt env (.data klass handle) key value w).2) := by
  cases hsk : STR2CSTR key with
  | error e2 =>
    by_cases hn : NIL_P value = true
    · simp only [dtrace_hdl_setopt, Data_Get_Struct, DATA_PTR, hsk, hn, if_true, Bool.false_eq_true, if_false,
        Except.error.injEq] at h
      subst h
      rw [STR2CSTR_error_klass _ _ hsk] at hk
      simp at hk
    · simp only [dtrace_hdl_setopt, Data_Get_Struct, DATA_PTR, hsk, hn, Bool.false_eq_true, if_false,
        Except.error.injEq] at h
      subst h
      rw [STR2CSTR_error_klass _ _ hsk] at hk
      simp at hk
  | ok k =>
    by_cases hn : NIL_P value = true
    · by_cases hneg : (env.dtrace_setopt handle k none w).1 < 0
      · simp only [dtrace_hdl_setopt, Data_Get_Struct, DATA_PTR, hsk, hn, if_true, Bool.false_eq_true, if_false, hneg,
          rb_raise, Except.error.injEq] at h ⊢
        subst h
        rfl
      · simp [dtrace_hdl_setopt, Data_Get_Struct, DATA_PTR, hsk, hn, hneg] at h
    · cases hsv : STR2CSTR value with
      | error e3 =>
        simp only [dtrace_hdl_setopt, Data_Get_Struct, DATA_PTR, hsk, hsv, hn, Bool.false_eq_true, if_false,
          Except.error.injEq] at h
        subst h
        rw [STR2CSTR_error_klass _ _ hsv] at hk
        simp at hk
      | ok v =>
        by_cases hneg : (env.dtrace_setopt handle k (some v) w).1 < 0
        · simp only [dtrace_hdl_setopt, Data_Get_Struct, DATA_PTR, hsk, hsv, hn, hneg,
            if_true, Bool.false_eq_true, if_false, rb_raise, Except.error.injEq] at h ⊢
          subst h
          rfl
        · simp [dtrace_hdl_setopt, Data_Get_Struct, DATA_PTR, hsk, hsv, hn, hneg] at h

/-- C6, as amended: a DtraceException raised by setOption, compile, go, status
or stop carries as its message the native message for the error code of the
session right after the failed native call, whenever that message passes
through `rb_raise` unchanged, holding no `%`; the error of open carries the
fixed text "unable to open dtrace (not root?)" and the error of the
buffered-output handler installation the fixed text "failed to establish
buffered handler" (the buffer of `rb_raise` has at least the 256 bytes that C
requires of BUFSIZ). -/
theorem raised_error_messages {σ : Type} (env : Env σ) (klass : Klass) (handle : CPtr)
    (w : σ) (e : RubyException) (hbuf : 256 ≤ env.BUFSIZ) :
    ((dtrace_hdl_alloc env klass w).1 = .error e →
      e = ⟨.eDtraceException, "unable to open dtrace (not root?)"⟩) ∧
    (∀ key value : VALUE,
      (dtrace_hdl_setopt env (.data klass handle) key value w).1 = .error e →
      e.klass = .eDtraceException →
      plain_text env.BUFSIZ (env.dtrace_errmsg handle
        (env.dtrace_errno handle (dtrace_hdl_setopt env (.data klass handle) key value w).2)
        (dtrace_hdl_setopt env (.data klass handle) key value w).2) = true →
      e.message = env.dtrace_errmsg handle
        (env.dtrace_errno handle (dtrace_hdl_setopt env (.data klass handle) key value w).2)
        (dtrace_hdl_setopt env (.data klass handle) key value w).2) ∧
    (∀ argv : List VALUE,
      (dtrace_strcompile env (.data klass handle) argv w).1 = .error e →
      e.klass = .eDtraceException →
      plain_text env.BUFSIZ (env.dtrace_errmsg handle
        (env.dtrace_errno handle (dtrace_strcompile env (.data klass handle) argv w).2)
        (dtrace_strcompile env (.data klass handle) argv w).2) = true →
      e.message = env.dtrace_errmsg handle
        (env.dtrace_errno handle (dtrace_strcompile env (.data klass handle) argv w).2)
        (dtrace_strcompile env (.data klass handle) argv w).2) ∧
    ((dtrace_hdl_go env (.data klass handle) w).1 = .error e →
      plain_text env.BUFSIZ (env.dtrace_errmsg handle
        (env.dtrace_errno handle (dtrace_hdl_go env (.data klass handle) w).2)
        (dtrace_hdl_go env (.data klass handle) w).2) = true →
      e = ⟨.eDtraceException, env.dtrace_errmsg handle
        (env.dtrace_errno handle (dtrace_hdl_go env (.data klass handle) w).2)
        (dtrace_hdl_go env (.data klass handle) w).2⟩) ∧
    ((dtrace_hdl_status env (.data klass handle) w).1 = .error e →
      plain_text env.BUFSIZ (env.dtrace_errmsg handle
        (env.dtrace_errno handle (dtrace_hdl_status env (.data klass handle) w).2)
        (dtrace_hdl_status env (.data klass handle) w).2) = true →
      e = ⟨.eDtraceException, env.dtrace_errmsg handle
        (env.dtrace_errno handle (dtrace_hdl_status env (.data klass handle) w).2)
        (dtrace_hdl_status env (.data klass handle) w).2⟩) ∧
    ((dtrace_hdl_stop env (.data klass handle) w).1 = .error e →
      plain_text env.BUFSIZ (env.dtrace_errmsg handle
        (env.dtrace_errno handle (dtrace_hdl_stop env (.data klass handle) w).2)
        (dtrace_hdl_stop env (.data klass handle) w).2) = true →
      e = ⟨.eDtraceException, env.dtrace_errmsg handle
        (env.dtrace_errno handle (dtrace_hdl_stop env (.data klass handle) w).2)
        (dtrace_hdl_stop env (.data klass handle) w).2⟩) ∧
    (∀ onBuffer : VALUE,
      (dtrace_hdl_buf_consumer env (.data klass handle) onBuffer w).1 = .error e →
      e = ⟨.eDtraceException, "failed to establish buffered handler"⟩) := by
  have hopen : rb_raise_message env "unable to open dtrace (not root?)"
      = "unable to open dtrace (not root?)" :=
    rb_raise_message_plain env _ (plain_text_of_size_le 256 _ _ hbuf (by decide))
  have hbuffered : rb_raise_message env "failed to establish buffered handler"
      = "failed to establish buffered handler" :=
    rb_raise_message_plain env _ (plain_text_of_size_le 256 _ _ hbuf (by decide))
  refine ⟨?_, ?_, ?_, ?_, ?_, ?_, ?_⟩
  · intro h
    by_cases hn : (env.dtrace_open DTRACE_VERSION 0 w).1.1 = .null
    · simp only [dtrace_hdl_alloc, hn, ne_eq, not_true_eq_false, if_false, rb_raise,
        Except.error.injEq, hopen] at h
      exact h.symm
    · simp [dtrace_hdl_alloc, hn] at h
  · intro key value h hk hp
    rw [setopt_error_message env klass handle key value w e h hk,
      rb_raise_message_plain env _ hp]
  · intro argv h hk hp
    rw [strcompile_error_message env klass handle argv w e h hk,
      rb_raise_message_plain env _ hp]
  · intro h
    by_cases hneg : (env.dtrace_go handle w).1 < 0
    · simp only [dtrace_hdl_go, Data_Get_Struct, DATA_PTR, hneg, if_true, rb_raise,
        Except.error.injEq] at h ⊢
      intro hp
      rw [← h, rb_raise_message_plain env _ hp]
    · simp [dtrace_hdl_go, Data_Get_Struct, DATA_PTR, hneg] at h
  · intro h
    by_cases hneg : (env.dtrace_status handle w).1 < 0
    · simp only [dtrace_hdl_status, Data_Get_Struct, DATA_PTR, hneg, if_true, rb_raise,
        Except.error.injEq] at h ⊢
      intro hp
      rw [← h, rb_raise_message_plain env _ hp]
    · simp [dtrace_hdl_status, Data_Get_Struct, DATA_PTR, hneg] at h
  · intro h
    by_cases hneg : (env.dtrace_stop handle w).1 < 0
    · simp only [dtrace_hdl_stop, Data_Get_Struct, DATA_PTR, hneg, if_true, rb_raise,
        Except.error.injEq] at h ⊢
      intro hp
      rw [← h, rb_raise_message_plain env _ hp]
    · simp [dtrace_hdl_stop, Data_Get_Struct, DATA_PTR, hneg] at h
  · intro onBuffer h
    by_cases hm : (env.dtrace_handle_buffered handle
        (fun bufdata => _buf_consumer env bufdata onBuffer) w).1 = -1
    · simp only [dtrace_hdl_buf_consumer, Data_Get_Struct, DATA_PTR, hm, if_true, rb_raise,
        Except.error.injEq, hbuffered] at h
      exact h.symm
    · simp [dtrace_hdl_buf_consumer, Data_Get_Struct, DATA_PTR, hm] at h

/-- A worked instance of C6: against a native engine whose calls all fail with
error code 5 pending, the error of stop carries the native text, which holds
no `%`, and the error of open the fixed text. -/
theorem raised_error_messages_witness :
    256 ≤ (scripted (-1) .null .null 5).BUFSIZ ∧
    (dtrace_hdl_stop (scripted (-1) .null .null 5) (.data (.other 0) (.hdl 1)) 0).1
      = .error ⟨.eDtraceException, "native error text"⟩ ∧
    (dtrace_hdl_alloc (scripted (-1) .null .null 5) (.other 0) 0).1
      = .error ⟨.eDtraceException, "unable to open dtrace (not root?)"⟩ ∧
    plain_text (scripted (-1) .null .null 5).BUFSIZ "native error text" = true ∧
    (⟨.eDtraceException, "native error text"⟩ : RubyException)
      = ⟨.eDtraceException, (scripted (-1) .null .null 5).dtrace_errmsg (.hdl 1)
          ((scripted (-1) .null .null 5).dtrace_errno (.hdl 1)
            (dtrace_hdl_stop (scripted (-1) .null .null 5)
              (.data (.other 0) (.hdl 1)) 0).2)
          (dtrace_hdl_stop (scripted (-1) .null .null 5) (.data (.other 0) (.hdl 1)) 0).2⟩ :=
  ⟨by decide, rfl, rfl, by decide,
    (raised_error_messages (scripted (-1) .null .null 5) (.other 0) (.hdl 1) 0
      ⟨.eDtraceException, "native error text"⟩ (by decide)).2.2.2.2.2.1 rfl (by decide)⟩

/-- C6 fails as stated: when the native open fails with error code 13, whose
native message is "native error text", open raises with another text; and when
the native installation of the buffered-output handler fails with error code
13 pending, the error raised carries another text as well. -/
theorem fixed_text_errors_not_native :
    ((scripted (-1) .null .null 13).dtrace_open DTRACE_VERSION 0 0).1 = (.null, 13) ∧
    (scripted (-1) .null .null 13).dtrace_errmsg .null 13 0 = "native error text" ∧
    (dtrace_hdl_alloc (scripted (-1) .null .null 13) (.other 0) 0).1
      = .error ⟨.eDtraceException, "unable to open dtrace (not root?)"⟩ ∧
    (⟨.eDtraceException, "unable to open dtrace (not root?)"⟩ : RubyException).message
      ≠ (scripted (-1) .null .null 13).dtrace_errmsg .null 13 0 ∧
    (scripted (-1) .null .null 13).dtrace_errmsg (.hdl 1)
        ((scripted (-1) .null .null 13).dtrace_errno (.hdl 1) 0) 0 = "native error text" ∧
    (dtrace_hdl_buf_consumer (scripted (-1) .null .null 13) (.data (.other 0) (.hdl 1))
        (.obj 3) 0).1
      = .error ⟨.eDtraceException, "failed to establish buffered handler"⟩ ∧
    (⟨.eDtraceException, "failed to establish buffered handler"⟩ : RubyException).message
      ≠ (scripted (-1) .null .null 13).dtrace_errmsg (.hdl 1)
          ((scripted (-1) .null .null 13).dtrace_errno (.hdl 1) 0) 0 := by
  refine ⟨rfl, rfl, rfl, ?_, rfl, rfl, ?_⟩ <;> decide

end RubyDtrace
